import Mathlib

/-! Shallow embedding of the varcode mutation-effect engine:

* `src/varcode/transcript_mutation_effects.py` — the effect taxonomy
  (classes become structures, methods become functions on them);
* `src/varcode/frameshift_coding_effect.py` — the frameshift resolver
  (fallible Python functions become `Except PyErr _` values);
* `src/varcode/variant_collection.py` — MAF loading of variant collections.

Python strings are modelled as `List Char`; Python slicing `s[:n]` is
`List.take n`, `s[n:]` is `List.drop n`, `s[a:b]` is `pySlice`.
Python runtime failures (assert failures, bad keyword arguments,
undefined names, out-of-range negative indexing, ValueError) are the
constructors of `PyErr`.
-/

set_option autoImplicit false

namespace Varcode

/-- Runtime failures of the Python code: `assert` failures, `TypeError`
(e.g. calling a function with an unexpected or missing keyword argument),
`NameError` (evaluating an undefined name), `IndexError` (e.g. `s[-1]` on
an empty string) and `ValueError` (explicit data-validation raises). -/
inductive PyErr where
  | assertionError : PyErr
  | typeError : PyErr
  | nameError : PyErr
  | indexError : PyErr
  | valueError : PyErr
deriving DecidableEq

/-- Modelled from the spec: the standard genetic code used by the external
Sequence Translator primitive (`from .translate import translate`, whose
module is not under `src/`).  Maps a DNA codon to an amino acid, with `*`
for the three stop codons and `X` for unrecognized codons. -/
def aminoAcidFor (c1 c2 c3 : Char) : Char :=
  match c1, c2, c3 with
  | 'T', 'T', 'T' => 'F' | 'T', 'T', 'C' => 'F' | 'T', 'T', 'A' => 'L' | 'T', 'T', 'G' => 'L'
  | 'C', 'T', 'T' => 'L' | 'C', 'T', 'C' => 'L' | 'C', 'T', 'A' => 'L' | 'C', 'T', 'G' => 'L'
  | 'A', 'T', 'T' => 'I' | 'A', 'T', 'C' => 'I' | 'A', 'T', 'A' => 'I' | 'A', 'T', 'G' => 'M'
  | 'G', 'T', 'T' => 'V' | 'G', 'T', 'C' => 'V' | 'G', 'T', 'A' => 'V' | 'G', 'T', 'G' => 'V'
  | 'T', 'C', 'T' => 'S' | 'T', 'C', 'C' => 'S' | 'T', 'C', 'A' => 'S' | 'T', 'C', 'G' => 'S'
  | 'C', 'C', 'T' => 'P' | 'C', 'C', 'C' => 'P' | 'C', 'C', 'A' => 'P' | 'C', 'C', 'G' => 'P'
  | 'A', 'C', 'T' => 'T' | 'A', 'C', 'C' => 'T' | 'A', 'C', 'A' => 'T' | 'A', 'C', 'G' => 'T'
  | 'G', 'C', 'T' => 'A' | 'G', 'C', 'C' => 'A' | 'G', 'C', 'A' => 'A' | 'G', 'C', 'G' => 'A'
  | 'T', 'A', 'T' => 'Y' | 'T', 'A', 'C' => 'Y' | 'T', 'A', 'A' => '*' | 'T', 'A', 'G' => '*'
  | 'C', 'A', 'T' => 'H' | 'C', 'A', 'C' => 'H' | 'C', 'A', 'A' => 'Q' | 'C', 'A', 'G' => 'Q'
  | 'A', 'A', 'T' => 'N' | 'A', 'A', 'C' => 'N' | 'A', 'A', 'A' => 'K' | 'A', 'A', 'G' => 'K'
  | 'G', 'A', 'T' => 'D' | 'G', 'A', 'C' => 'D' | 'G', 'A', 'A' => 'E' | 'G', 'A', 'G' => 'E'
  | 'T', 'G', 'T' => 'C' | 'T', 'G', 'C' => 'C' | 'T', 'G', 'A' => '*' | 'T', 'G', 'G' => 'W'
  | 'C', 'G', 'T' => 'R' | 'C', 'G', 'C' => 'R' | 'C', 'G', 'A' => 'R' | 'C', 'G', 'G' => 'R'
  | 'A', 'G', 'T' => 'S' | 'A', 'G', 'C' => 'S' | 'A', 'G', 'A' => 'R' | 'A', 'G', 'G' => 'R'
  | 'G', 'G', 'T' => 'G' | 'G', 'G', 'C' => 'G' | 'G', 'G', 'A' => 'G' | 'G', 'G', 'G' => 'G'
  | _, _, _ => 'X'

/-- Split a nucleotide sequence into complete codons, dropping an
incomplete trailing codon (the spec: "when the input is not a multiple of
3 in length, translates only complete trailing codons"). -/
def codons : List Char → List (Char × Char × Char)
  | c1 :: c2 :: c3 :: rest => (c1, c2, c3) :: codons rest
  | _ => []

/-- Modelled from the spec: the external Sequence Translator primitive
`translate(nucleotides, first_codon_is_start, to_stop)` from
`src/varcode/translate.py`, which is absent from `src/`.  Per the spec it
translates "in triplets starting at offset 0 of the given string; when
`to_stop` is set, stops at and excludes the first in-frame stop codon";
when `first_codon_is_start` is set the first codon is read as the start
codon (amino acid `M`). -/
def translate (nucleotide_sequence : List Char)
    (first_codon_is_start : Bool) (to_stop : Bool) : List Char :=
  let aas := (codons nucleotide_sequence).map fun t => aminoAcidFor t.1 t.2.1 t.2.2
  let aas :=
    if first_codon_is_start then
      match aas with
      | [] => []
      | _ :: rest => 'M' :: rest
    else aas
  if to_stop then aas.takeWhile (fun c => c ≠ '*') else aas

/-- Python slice `s[a:b]` (for `0 ≤ a ≤ b`). -/
def pySlice (s : List Char) (a b : Nat) : List Char :=
  (s.take b).drop a

/-- Embeds `varcode.Variant`: normalized contig / position / ref allele /
alt allele tuple (spec section 3). -/
structure Variant where
  contig : String
  pos : Nat
  ref : List Char
  alt : List Char
deriving DecidableEq

/-- Embeds `pyensembl.Transcript`, consumed read-only: its coding sequence and its
translated protein sequence.  `transcript.protein_sequence` is modelled as
always present (the `assert transcript.protein_sequence is not None` at the
top of `_frameshift_inside_cds` therefore always passes). -/
structure Transcript where
  name : String
  coding_sequence : List Char
  protein_sequence : List Char
deriving DecidableEq

/-- Embeds `TranscriptMutationEffect.original_protein_sequence`:
`Bio.Seq.translate(coding_sequence, to_stop=True, cds=True)` — translate
the transcript's coding sequence, first codon as start, up to the first
stop codon. -/
def original_protein_sequence (t : Transcript) : List Char :=
  translate t.coding_sequence true true

/-! Effect taxonomy (`src/varcode/transcript_mutation_effects.py`)

Each Python class becomes a structure holding its constructor-set fields;
its methods and memoized properties become functions on that structure. -/

/-- Embeds `BaseSubstitution(variant, transcript, aa_pos, aa_ref, aa_alt)`:
coding mutation replacing amino acids `aa_ref` at 0-based position
`aa_pos` with `aa_alt`.  Its `__init__` only stores fields (plus the
derived `mutation_start`/`mutation_end`), so construction never raises. -/
structure BaseSubstitution where
  variant : Variant
  transcript : Transcript
  aa_pos : Nat
  aa_ref : List Char
  aa_alt : List Char
deriving DecidableEq

/-- Embeds `BaseSubstitution.short_description` (lines 203-212). -/
def BaseSubstitution.short_description (e : BaseSubstitution) : String :=
  if e.aa_ref.length = 0 then
    "p." ++ toString e.aa_pos ++ "ins" ++ String.mk e.aa_alt
  else if e.aa_alt.length = 0 then
    "p." ++ String.mk e.aa_ref ++ toString e.aa_pos ++ "del"
  else
    "p." ++ String.mk e.aa_ref ++ toString (e.aa_pos + 1) ++ String.mk e.aa_alt

/-- Embeds `BaseSubstitution.mutant_protein_sequence` (lines 214-219):
`original[:aa_pos] + aa_alt + original[aa_pos + len(aa_ref):]`. -/
def BaseSubstitution.mutant_protein_sequence (e : BaseSubstitution) : List Char :=
  let original := original_protein_sequence e.transcript
  let front := original.take e.aa_pos
  let back := original.drop (e.aa_pos + e.aa_ref.length)
  front ++ e.aa_alt ++ back

/-- Embeds `PrematureStop(variant, transcript, aa_pos, aa_ref)`: a
`BaseSubstitution` whose `aa_alt` is fixed to `"*"`. -/
structure PrematureStop where
  variant : Variant
  transcript : Transcript
  aa_pos : Nat
  aa_ref : List Char
deriving DecidableEq

/-- Records the `aa_alt="*"` that `PrematureStop.__init__` passes to
`BaseSubstitution.__init__`. -/
def PrematureStop.aa_alt (_ : PrematureStop) : List Char := ['*']

/-- Embeds `PrematureStop.short_description` (lines 316-319). -/
def PrematureStop.short_description (e : PrematureStop) : String :=
  "p." ++ String.mk e.aa_ref ++ toString (e.aa_pos + 1) ++ "*"

/-- Embeds `PrematureStop.mutant_protein_sequence` (lines 321-323):
`original_protein_sequence[:aa_pos]`. -/
def PrematureStop.mutant_protein_sequence (e : PrematureStop) : List Char :=
  (original_protein_sequence e.transcript).take e.aa_pos

/-- The "not computable" signal: `UnpredictableCodingMutation`'s
`mutant_protein_sequence` property raises
`ValueError("Can't determine the protein sequence of ...")`. -/
inductive ProteinSequenceError where
  | notComputable : ProteinSequenceError
deriving DecidableEq

/-- Embeds `UnpredictableCodingMutation`: a `BaseSubstitution` whose protein
consequence is explicitly not computable.  Its `__init__` is inherited
from `BaseSubstitution` and never raises. -/
structure UnpredictableCodingMutation where
  variant : Variant
  transcript : Transcript
  aa_pos : Nat
  aa_ref : List Char
  aa_alt : List Char
deriving DecidableEq

/-- Embeds `UnpredictableCodingMutation.mutant_protein_sequence` (lines 337-339):
every access raises, never returns a string. -/
def UnpredictableCodingMutation.mutant_protein_sequence
    (_ : UnpredictableCodingMutation) : Except ProteinSequenceError (List Char) :=
  .error .notComputable

/-- Embeds `StopLoss`: an `UnpredictableCodingMutation` with its own
`short_description`; construction (the inherited `BaseSubstitution`
`__init__`) never raises. -/
structure StopLoss where
  variant : Variant
  transcript : Transcript
  aa_pos : Nat
  aa_ref : List Char
  aa_alt : List Char
deriving DecidableEq

/-- Embeds `StopLoss.short_description` (lines 342-343). -/
def StopLoss.short_description (e : StopLoss) : String :=
  "*" ++ toString e.aa_pos ++ String.mk e.aa_alt ++ " (stop-loss)"

/-- Class `StopLoss` inherits `UnpredictableCodingMutation.mutant_protein_sequence`. -/
def StopLoss.mutant_protein_sequence
    (_ : StopLoss) : Except ProteinSequenceError (List Char) :=
  .error .notComputable

/-- Embeds `StartLoss(variant, transcript, aa_pos, aa_alt)`: an
`UnpredictableCodingMutation` constructed with `aa_ref="M"`;
its `__init__` never raises. -/
structure StartLoss where
  variant : Variant
  transcript : Transcript
  aa_pos : Nat
  aa_alt : List Char
deriving DecidableEq

/-- Records the `aa_ref="M"` that `StartLoss.__init__` passes along. -/
def StartLoss.aa_ref (_ : StartLoss) : List Char := ['M']

/-- Class `StartLoss` inherits `UnpredictableCodingMutation.mutant_protein_sequence`. -/
def StartLoss.mutant_protein_sequence
    (_ : StartLoss) : Except ProteinSequenceError (List Char) :=
  .error .notComputable

/-- Embeds `FrameShift(variant, transcript, aa_pos, aa_ref, shifted_sequence)`:
coding mutation that shifts the reading frame, carrying the shifted
downstream amino-acid sequence. -/
structure FrameShift where
  variant : Variant
  transcript : Transcript
  aa_pos : Nat
  aa_ref : List Char
  shifted_sequence : List Char
deriving DecidableEq

/-- Embeds `FrameShift.mutant_protein_sequence` (lines 385-388):
`original_protein_sequence[:aa_pos] + shifted_sequence`. -/
def FrameShift.mutant_protein_sequence (e : FrameShift) : List Char :=
  let original_aa_sequence := (original_protein_sequence e.transcript).take e.aa_pos
  original_aa_sequence ++ e.shifted_sequence

/-- Embeds `FrameShift.short_description` (lines 390-391). -/
def FrameShift.short_description (e : FrameShift) : String :=
  "p." ++ String.mk e.aa_ref ++ toString (e.aa_pos + 1) ++ "fs"

/-- Embeds `FrameShiftTruncation`: a frameshift which immediately introduces a
stop codon.  (Constructing it as `_frameshift_inside_cds` attempts to is a
separate matter, settled with the frameshift resolver below; the structure
here carries the fields such an object would hold.) -/
structure FrameShiftTruncation where
  variant : Variant
  transcript : Transcript
  aa_pos : Nat
  aa_ref : List Char
deriving DecidableEq

/-- Embeds `FrameShiftTruncation.mutant_protein_sequence` (lines 400-402):
`original_protein_sequence[:aa_pos]`. -/
def FrameShiftTruncation.mutant_protein_sequence (e : FrameShiftTruncation) : List Char :=
  (original_protein_sequence e.transcript).take e.aa_pos

/-- Embeds `FrameShiftTruncation.short_description` (lines 404-405). -/
def FrameShiftTruncation.short_description (e : FrameShiftTruncation) : String :=
  "p." ++ String.mk e.aa_ref ++ toString (e.aa_pos + 1) ++ "fs*"

/-! Frameshift resolver (`src/varcode/frameshift_coding_effect.py`)

The module's functions can raise at runtime, so they are embedded as
`Except PyErr FrameshiftEffect`.  Two runtime failures are baked into the
source as it stands:

* `frameshift_coding_insertion_effect` calls `_frameshift_inside_cds`
  with the keyword argument `protein_before_mutation`, which is not a
  parameter of `_frameshift_inside_cds` (whose first parameter is
  `codon_index_before_mutation` and is never supplied) — the call raises
  `TypeError` before the callee's body runs;
* in `_frameshift_inside_cds` the `FrameShiftTruncation(...)` call raises
  `TypeError`: `FrameShiftTruncation.__init__` forwards to
  `super(PrematureStop, self).__init__`, which by the MRO is
  `BaseSubstitution.__init__` and requires an `aa_alt` argument that is
  never passed;
* the non-insertion branch of `frameshift_coding_effect` evaluates the
  name `substitute`, which is neither defined nor imported in the module
  (`NameError`), and its body ends without returning an effect. -/

/-- Result type of the frameshift resolver: exactly one of `FrameShift` or
`FrameShiftTruncation` (spec section 8). -/
inductive FrameshiftEffect where
  | frameShift : FrameShift → FrameshiftEffect
  | frameShiftTruncation : FrameShiftTruncation → FrameshiftEffect
deriving DecidableEq

/-- The codon-index computation of `frameshift_coding_insertion_effect`
(lines 94-100): `int(offset / 3)` when `offset % 3 == 2` (insertion after
the last nucleotide of a codon), else `int(offset / 3) - 1` (insertion
disrupts the codon it falls within).  The result is an `Int` because it is
`-1` for `offset ∈ {0, 1}`. -/
def codonIndexBeforeInsertion (cds_offset_before_insertion : Nat) : Int :=
  if cds_offset_before_insertion % 3 = 2 then
    ((cds_offset_before_insertion / 3 : Nat) : Int)
  else
    ((cds_offset_before_insertion / 3 : Nat) : Int) - 1

/-- Embeds `_frameshift_inside_cds(codon_index_before_mutation,
coding_sequence_after_mutation, variant, transcript)` (lines 23-80):
the shared frame-resolution step.  The initial
`assert transcript.protein_sequence is not None` always passes in this
model (`protein_sequence` is total). -/
def frameshift_inside_cds (codon_index_before_mutation : Int)
    (coding_sequence_after_mutation : List Char)
    (variant : Variant) (transcript : Transcript) :
    Except PyErr FrameshiftEffect :=
  let mutation_codon_offset := codon_index_before_mutation + 1
  if mutation_codon_offset > 0 then
    let stop_codon_offset : Int := transcript.protein_sequence.length
    if mutation_codon_offset < stop_codon_offset then
      let protein_before_mutation :=
        transcript.protein_sequence.take mutation_codon_offset.toNat
      let protein_after_insertion :=
        translate coding_sequence_after_mutation false true
      if protein_after_insertion.length = 0 then
        -- `protein_before_mutation[-1]` raises IndexError on an empty
        -- string; otherwise `FrameShiftTruncation(variant=..,
        -- transcript=.., aa_pos=.., aa_ref=..)` raises TypeError
        -- (see the module comment above).
        match protein_before_mutation.getLast? with
        | none => .error .indexError
        | some _ => .error .typeError
      else
        match protein_before_mutation.getLast? with
        | none => .error .indexError
        | some lastAA =>
          .ok (.frameShift
            { variant := variant
              transcript := transcript
              aa_pos := mutation_codon_offset.toNat
              aa_ref := [lastAA]
              shifted_sequence := protein_after_insertion })
    else .error .assertionError
  else .error .assertionError

/-- Embeds `frameshift_coding_insertion_effect(cds_offset_before_insertion,
inserted_nucleotides, sequence_from_start_codon, variant, transcript)`
(lines 82-128).  After its two asserts it calls `_frameshift_inside_cds`
with the unexpected keyword argument `protein_before_mutation`, so every
call that passes the asserts raises `TypeError`. -/
def frameshift_coding_insertion_effect (cds_offset_before_insertion : Nat)
    (inserted_nucleotides : List Char) (sequence_from_start_codon : List Char)
    (variant : Variant) (transcript : Transcript) :
    Except PyErr FrameshiftEffect :=
  let codon_index_before_insertion :=
    codonIndexBeforeInsertion cds_offset_before_insertion
  if codon_index_before_insertion ≥ 0 then
    let original_protein_sequence := transcript.protein_sequence
    if codon_index_before_insertion < (original_protein_sequence.length : Int) - 1 then
      -- (the `if codon_index_before_insertion == len - 1: pass` branch of
      -- the source is a no-op and unreachable under the assert above)
      let cds_offset_after_insertion := (codon_index_before_insertion + 1) * 3
      let original_coding_sequence_after_insertion :=
        sequence_from_start_codon.drop cds_offset_after_insertion.toNat
      let coding_sequence_after_insertion :=
        inserted_nucleotides ++ original_coding_sequence_after_insertion
      let mutation_codon_offset := codon_index_before_insertion + 1
      let protein_before_mutation :=
        original_protein_sequence.take mutation_codon_offset.toNat
      -- the call `_frameshift_inside_cds(protein_before_mutation=..,
      -- coding_sequence_after_mutation=.., variant=.., transcript=..)`
      -- raises TypeError: unexpected keyword `protein_before_mutation`,
      -- missing required `codon_index_before_mutation`.
      let _ := coding_sequence_after_insertion
      let _ := protein_before_mutation
      let _ := variant
      .error .typeError
    else .error .assertionError
  else .error .assertionError

/-- Embeds `frameshift_coding_effect(ref, alt, cds_offset,
sequence_from_start_codon, variant, transcript)` (lines 130-161). -/
def frameshift_coding_effect (ref alt : List Char) (cds_offset : Nat)
    (sequence_from_start_codon : List Char)
    (variant : Variant) (transcript : Transcript) :
    Except PyErr FrameshiftEffect :=
  if ref.length = 0 then
    frameshift_coding_insertion_effect cds_offset alt
      sequence_from_start_codon variant transcript
  else if alt.length = 0 then
    -- assert len(alt) > 0
    .error .assertionError
  else
    let original_protein_sequence := transcript.protein_sequence
    let mutated_codon_index := cds_offset / 3
    let protein_before_mutation := original_protein_sequence.take mutated_codon_index
    let sequence_after_mutation := sequence_from_start_codon.drop cds_offset
    -- `substitute(sequence_after_mutation, ref, alt)` evaluates the
    -- undefined name `substitute` and raises NameError; even absent that,
    -- the function body ends here without returning an effect.
    let _ := protein_before_mutation
    let _ := sequence_after_mutation
    .error .nameError

/-! MAF loading (`src/varcode/variant_collection.py`)

File parsing is out of scope (spec section 1), so
`VariantCollection._init_from_maf` is embedded over the already-parsed
record list that `maf.load_maf_dataframe` would produce.  Data-validation
failures are the explicit `raise ValueError(...)` statements
(`PyErr.valueError`), and they run before the per-record loop.  The loop
itself, however, evaluates `normalize_nucleotide_string` (line 72), a
name that is neither defined nor imported in `variant_collection.py`
(its imports are `infer_reference_name`, `Variant`, `maf`, `vcf`), so it
raises `NameError` on the first record of every nonempty MAF — the same
unbound-name situation as `substitute` in the frameshift module — and
the tumor-allele `assert` at line 77 is unreachable. -/

/-- One row of the parsed MAF dataframe, with the columns
`_init_from_maf` reads. -/
structure MafRecord where
  NCBI_Build : String
  Chromosome : String
  Start_Position : Nat
  End_Position : Nat
  Reference_Allele : List Char
  Tumor_Seq_Allele1 : List Char
  Tumor_Seq_Allele2 : List Char
deriving DecidableEq

/-- Helper for `pandasUnique`: emit each value not already seen, in
order. -/
def pandasUniqueAux : List String → List String → List String
  | [], _ => []
  | x :: xs, seen =>
    if x ∈ seen then pandasUniqueAux xs seen
    else x :: pandasUniqueAux xs (x :: seen)

/-- Embeds `pandas.Series.unique` on the `NCBI_Build` column: the distinct values
in order of first occurrence. -/
def pandasUnique (xs : List String) : List String :=
  pandasUniqueAux xs []

/-- The per-record body of the `_init_from_maf` loop (lines 68-84).  Its
first statement after reading the row's columns,
`ref = normalize_nucleotide_string(x.Reference_Allele)` (line 72),
evaluates a name that is neither defined nor imported in
`variant_collection.py`, so every iteration raises `NameError` before the
tumor-allele check or any `Variant` construction is reached; the rest of
the loop body (lines 74-84) is dead code. -/
def mafRecordToVariant (_ : MafRecord) : Except PyErr Variant :=
  .error .nameError

/-- The fields `_init_from_maf` initializes on the collection. -/
structure VariantCollectionState where
  raw_reference_name : String
  records : List Variant
deriving DecidableEq

/-- Embeds `VariantCollection._init_from_maf` (lines 46-84) over the parsed
record list: empty input and zero or multiple distinct NCBI builds raise
`ValueError` before the loop; past those checks the per-record loop runs,
and every iteration raises `NameError` (see `mafRecordToVariant`), so the
final `.ok` branch is unreachable for nonempty input. -/
def init_from_maf (maf_df : List MafRecord) : Except PyErr VariantCollectionState :=
  if maf_df.length = 0 then
    -- raise ValueError("Empty MAF file ...")
    .error .valueError
  else
    match pandasUnique (maf_df.map (fun x => x.NCBI_Build)) with
    | [] =>
      -- raise ValueError("No NCBI builds ...")
      .error .valueError
    | b :: rest =>
      if rest.length > 0 then
        -- raise ValueError("Multiple NCBI builds ...")
        .error .valueError
      else do
        let records ← maf_df.mapM mafRecordToVariant
        .ok { raw_reference_name := b, records := records }

/-! Concrete sample inputs used by the claim theorems and witnesses -/

/-- A sample variant. -/
def v0 : Variant :=
  { contig := "1", pos := 100, ref := ['A'], alt := ['G'] }

/-- A sample transcript: coding sequence `ATG AAA GTT TAA`, protein `MKV`
(stop codon at codon index 3). -/
def t0 : Transcript :=
  { name := "T0"
    coding_sequence := String.toList "ATGAAAGTTTAA"
    protein_sequence := String.toList "MKV" }

/-! Claim theorems -/

/-- C1: the claim says `frameshift_coding_effect` always returns exactly
one `FrameShift`/`FrameShiftTruncation` effect, in particular in the
non-insertion case.  The code does not: in the non-insertion case
(`ref = "A"`, `alt = "GG"`, a frameshift edit) it evaluates the undefined
name `substitute` (`NameError`) and its body ends without returning an
effect; in the insertion case (`ref = ""`) it calls
`_frameshift_inside_cds` with the unexpected keyword argument
`protein_before_mutation` (`TypeError`).  This theorem evaluates both
paths at concrete frameshift edits. -/
theorem frameshift_coding_effect_returns_no_effect :
    frameshift_coding_effect (String.toList "A") (String.toList "GG") 4
      (String.toList "ATGAAAGTTTAA") v0 t0 = .error .nameError ∧
    frameshift_coding_effect [] (String.toList "GG") 4
      (String.toList "ATGAAAGTTTAA") v0 t0 = .error .typeError :=
  ⟨rfl, rfl⟩

/-- C2: the claim says that when the post-mutation translation yields zero
amino acids, `_frameshift_inside_cds` returns a `FrameShiftTruncation`.
The code instead raises `TypeError` there: `FrameShiftTruncation(...)`
forwards (via `super(PrematureStop, self).__init__`, which by the MRO is
`BaseSubstitution.__init__`) to a constructor requiring an `aa_alt`
argument that is never supplied.  Concretely, with
`codon_index_before_mutation = 1` and post-mutation sequence `TAA`
(immediate stop, zero amino acids) on transcript `t0`. -/
theorem frameshift_truncation_branch_raises :
    frameshift_inside_cds 1 (String.toList "TAA") v0 t0 = .error .typeError :=
  rfl

/-- C3: the codon index computed by `frameshift_coding_insertion_effect`
equals `floor(cds_offset/3)` when `cds_offset % 3 == 2` (insertion after
the 3rd base of a codon) and `floor(cds_offset/3) - 1` for every other
`cds_offset`. -/
theorem codonIndexBeforeInsertion_spec :
    ∀ cds_offset : Nat,
      (cds_offset % 3 = 2 →
        codonIndexBeforeInsertion cds_offset = ((cds_offset / 3 : Nat) : Int)) ∧
      (cds_offset % 3 ≠ 2 →
        codonIndexBeforeInsertion cds_offset = ((cds_offset / 3 : Nat) : Int) - 1) := by
  intro cds_offset
  constructor
  · intro h
    simp [codonIndexBeforeInsertion, h]
  · intro h
    simp [codonIndexBeforeInsertion, h]

/-- Witness for C3: insertion at offset 8 (after the 3rd base of codon 2)
gives index `8/3 = 2`; insertion at offset 4 (mid-codon) gives
`4/3 - 1 = 0`. -/
theorem codonIndexBeforeInsertion_spec_witness :
    codonIndexBeforeInsertion 8 = ((8 / 3 : Nat) : Int) ∧
    codonIndexBeforeInsertion 4 = ((4 / 3 : Nat) : Int) - 1 :=
  ⟨(codonIndexBeforeInsertion_spec 8).1 (by decide),
   (codonIndexBeforeInsertion_spec 4).2 (by decide)⟩

/-- C4 counterexample: the claim requires a loud failure whenever the
disrupted codon index is not strictly less than
`len(protein_sequence) - 1`.  But with `codon_index_before_mutation = 1`
on transcript `t0` (protein `MKV`, length 3) the disrupted codon index is
`2 = 3 - 1`, which is not `< 3 - 1`, yet `_frameshift_inside_cds` raises
nothing and returns a `FrameShift` effect: the code's own bound is
`< len(protein_sequence)` (the stop codon sits at codon index
`len(protein_sequence)`), not `< len(protein_sequence) - 1`. -/
theorem frameshift_bounds_counterexample :
    ¬ ((1 : Int) + 1 < (t0.protein_sequence.length : Int) - 1) ∧
    frameshift_inside_cds 1 (String.toList "AAA") v0 t0 =
      .ok (.frameShift
        { variant := v0, transcript := t0, aa_pos := 2,
          aa_ref := ['K'], shifted_sequence := ['K'] }) :=
  ⟨by decide, rfl⟩

/-- C4 amended: for both frameshift paths, if the disrupted codon index
(`codon_index_before_* + 1`) is not strictly greater than 0 or not
strictly less than `len(protein_sequence)` — the stop codon's codon
index — the call raises an assertion failure instead of returning any
effect object. -/
theorem frameshift_out_of_bounds_raises :
    (∀ (cibm : Int) (cs : List Char) (v : Variant) (t : Transcript),
      (¬ cibm + 1 > 0 ∨ ¬ cibm + 1 < (t.protein_sequence.length : Int)) →
        frameshift_inside_cds cibm cs v t = .error .assertionError) ∧
    (∀ (offset : Nat) (ins seq : List Char) (v : Variant) (t : Transcript),
      (¬ codonIndexBeforeInsertion offset + 1 > 0 ∨
       ¬ codonIndexBeforeInsertion offset + 1 < (t.protein_sequence.length : Int)) →
        frameshift_coding_insertion_effect offset ins seq v t =
          .error .assertionError) := by
  constructor
  · intro cibm cs v t h
    rcases h with h | h
    · simp only [frameshift_inside_cds]
      rw [if_neg h]
    · simp only [frameshift_inside_cds]
      by_cases h0 : cibm + 1 > 0
      · rw [if_pos h0, if_neg h]
      · rw [if_neg h0]
  · intro offset ins seq v t h
    rcases h with h | h
    · have h' : ¬ codonIndexBeforeInsertion offset ≥ 0 := by omega
      simp only [frameshift_coding_insertion_effect]
      rw [if_neg h']
    · have h' : ¬ codonIndexBeforeInsertion offset <
          (t.protein_sequence.length : Int) - 1 := by omega
      simp only [frameshift_coding_insertion_effect]
      by_cases h0 : codonIndexBeforeInsertion offset ≥ 0
      · rw [if_pos h0, if_neg h']
      · rw [if_neg h0]

/-- Witness for C4 amended: `codon_index_before_mutation = -2` gives a
disrupted codon index of `-1`, not `> 0`; an insertion at `cds_offset = 0`
gives `codon_index_before_insertion = -1`, likewise out of bounds.  Both
calls raise assertion failures. -/
theorem frameshift_out_of_bounds_raises_witness :
    frameshift_inside_cds (-2) [] v0 t0 = .error .assertionError ∧
    frameshift_coding_insertion_effect 0 ['A']
      (String.toList "ATGAAAGTTTAA") v0 t0 = .error .assertionError :=
  ⟨frameshift_out_of_bounds_raises.1 (-2) [] v0 t0 (Or.inl (by decide)),
   frameshift_out_of_bounds_raises.2 0 ['A'] (String.toList "ATGAAAGTTTAA") v0 t0
     (Or.inl (by decide))⟩

/-- C5: for every `FrameShift` effect, `mutant_protein_sequence` is the
wild-type protein prefix of length `aa_pos` followed by
`shifted_sequence`, and nothing follows the shifted sequence: dropping
that prefix leaves exactly `shifted_sequence`. -/
theorem frameShift_mutant_protein_sequence_spec :
    ∀ e : FrameShift,
      e.mutant_protein_sequence =
        (original_protein_sequence e.transcript).take e.aa_pos ++ e.shifted_sequence ∧
      e.mutant_protein_sequence.drop
          (min e.aa_pos (original_protein_sequence e.transcript).length) =
        e.shifted_sequence := by
  intro e
  refine ⟨rfl, ?_⟩
  show ((original_protein_sequence e.transcript).take e.aa_pos ++
          e.shifted_sequence).drop
        (min e.aa_pos (original_protein_sequence e.transcript).length) =
      e.shifted_sequence
  rw [← List.length_take e.aa_pos (original_protein_sequence e.transcript)]
  exact List.drop_left _ _

/-- C6: round-trip for a coding substitution effect whose `aa_pos` lies
within the original protein: the mutant protein's slice
`[aa_pos : aa_pos + len(aa_alt)]` is `aa_alt`, its prefix `[0 : aa_pos]`
is the original's prefix, and its suffix from `aa_pos + len(aa_alt)` is
the original's suffix from `aa_pos + len(aa_ref)`. -/
theorem baseSubstitution_round_trip :
    ∀ e : BaseSubstitution,
      e.aa_pos ≤ (original_protein_sequence e.transcript).length →
        pySlice e.mutant_protein_sequence e.aa_pos (e.aa_pos + e.aa_alt.length) =
          e.aa_alt ∧
        e.mutant_protein_sequence.take e.aa_pos =
          (original_protein_sequence e.transcript).take e.aa_pos ∧
        e.mutant_protein_sequence.drop (e.aa_pos + e.aa_alt.length) =
          (original_protein_sequence e.transcript).drop
            (e.aa_pos + e.aa_ref.length) := by
  intro e h
  set o := original_protein_sequence e.transcript with ho
  have hmut : e.mutant_protein_sequence =
      o.take e.aa_pos ++ e.aa_alt ++ o.drop (e.aa_pos + e.aa_ref.length) := rfl
  have hA : (o.take e.aa_pos).length = e.aa_pos := by
    rw [List.length_take]
    exact min_eq_left h
  have hAB : (o.take e.aa_pos ++ e.aa_alt).length = e.aa_pos + e.aa_alt.length := by
    rw [List.length_append, hA]
  refine ⟨?_, ?_, ?_⟩
  · rw [hmut, pySlice, List.take_left' hAB, List.drop_left' hA]
  · rw [hmut, List.append_assoc, List.take_left' hA]
  · rw [hmut, List.drop_left' hAB]

/-- Concrete coding substitution for the C6 witness: replace `K` at
position 1 of `MKV` with `QQ`. -/
def e6 : BaseSubstitution :=
  { variant := v0, transcript := t0, aa_pos := 1, aa_ref := ['K'], aa_alt := ['Q', 'Q'] }

/-- Witness for C6 at `e6` (mutant protein `MQQV`). -/
theorem baseSubstitution_round_trip_witness :
    pySlice e6.mutant_protein_sequence e6.aa_pos (e6.aa_pos + e6.aa_alt.length) =
      e6.aa_alt ∧
    e6.mutant_protein_sequence.take e6.aa_pos =
      (original_protein_sequence e6.transcript).take e6.aa_pos ∧
    e6.mutant_protein_sequence.drop (e6.aa_pos + e6.aa_alt.length) =
      (original_protein_sequence e6.transcript).drop
        (e6.aa_pos + e6.aa_ref.length) :=
  baseSubstitution_round_trip e6 (by decide)

/-- C8: every `UnpredictableCodingMutation` (including every `StopLoss`
and `StartLoss`) is an ordinary constructed effect object, yet every
access of its `mutant_protein_sequence` fails with the "not computable"
signal instead of returning a string. -/
theorem unpredictable_mutant_protein_sequence_not_computable :
    ∀ (u : UnpredictableCodingMutation) (sl : StopLoss) (st : StartLoss),
      u.mutant_protein_sequence = .error .notComputable ∧
      sl.mutant_protein_sequence = .error .notComputable ∧
      st.mutant_protein_sequence = .error .notComputable :=
  fun _ _ _ => ⟨rfl, rfl, rfl⟩

/-- C10: for every `PrematureStop` and every `FrameShiftTruncation`,
`mutant_protein_sequence` is the original protein truncated to its first
`aa_pos` amino acids, so nothing at or after position `aa_pos`
survives (the result's length is at most `aa_pos`). -/
theorem truncation_mutant_protein_sequence_spec :
    ∀ (p : PrematureStop) (f : FrameShiftTruncation),
      p.mutant_protein_sequence =
        (original_protein_sequence p.transcript).take p.aa_pos ∧
      p.mutant_protein_sequence.length ≤ p.aa_pos ∧
      f.mutant_protein_sequence =
        (original_protein_sequence f.transcript).take f.aa_pos ∧
      f.mutant_protein_sequence.length ≤ f.aa_pos :=
  fun _ _ => ⟨rfl, List.length_take_le _ _, rfl, List.length_take_le _ _⟩

/-- Concrete pure-insertion effect for C7: `aa_pos = 2` (0-based),
`aa_ref = ""`, `aa_alt = "Q"`. -/
def e7ins : BaseSubstitution :=
  { variant := v0, transcript := t0, aa_pos := 2, aa_ref := [], aa_alt := ['Q'] }

/-- C7 counterexample: the claim says `short_description` always renders
the stored 0-based position 1-based.  For the pure insertion `e7ins` with
`aa_pos = 2` the code renders `p.2insQ` — the stored 0-based value — not
the 1-based `p.3insQ` (pure deletions likewise render `aa_pos` without
`+ 1`). -/
theorem insertion_short_description_zero_based :
    e7ins.short_description = "p.2insQ" ∧ e7ins.short_description ≠ "p.3insQ" := by
  constructor
  · rfl
  · decide

/-- C7 amended: the exact rendering formats.  Substitutions, frameshifts
(`fs`, and `fs*` for immediate truncations) and premature stops render the
position 1-based (`aa_pos + 1`); pure insertions (`p.<pos>ins<alt>`) and
pure deletions (`p.<ref><pos>del`) render the stored 0-based `aa_pos`
directly. -/
theorem short_description_formats :
    (∀ e : BaseSubstitution, e.aa_ref = [] →
      e.short_description = "p." ++ toString e.aa_pos ++ "ins" ++ String.mk e.aa_alt) ∧
    (∀ e : BaseSubstitution, e.aa_ref ≠ [] → e.aa_alt = [] →
      e.short_description = "p." ++ String.mk e.aa_ref ++ toString e.aa_pos ++ "del") ∧
    (∀ e : BaseSubstitution, e.aa_ref ≠ [] → e.aa_alt ≠ [] →
      e.short_description =
        "p." ++ String.mk e.aa_ref ++ toString (e.aa_pos + 1) ++ String.mk e.aa_alt) ∧
    (∀ e : PrematureStop,
      e.short_description = "p." ++ String.mk e.aa_ref ++ toString (e.aa_pos + 1) ++ "*") ∧
    (∀ e : FrameShift,
      e.short_description = "p." ++ String.mk e.aa_ref ++ toString (e.aa_pos + 1) ++ "fs") ∧
    (∀ e : FrameShiftTruncation,
      e.short_description =
        "p." ++ String.mk e.aa_ref ++ toString (e.aa_pos + 1) ++ "fs*") := by
  refine ⟨?_, ?_, ?_, fun _ => rfl, fun _ => rfl, fun _ => rfl⟩
  · intro e h
    simp [BaseSubstitution.short_description, h]
  · intro e h h'
    simp [BaseSubstitution.short_description, h, h']
  · intro e h h'
    simp [BaseSubstitution.short_description, h, h']

/-- Concrete pure deletion for the C7 witness: delete `KV` at position 1. -/
def e7del : BaseSubstitution :=
  { variant := v0, transcript := t0, aa_pos := 1, aa_ref := ['K', 'V'], aa_alt := [] }

/-- Concrete substitution for the C7 witness: `K` to `R` at position 1. -/
def e7sub : BaseSubstitution :=
  { variant := v0, transcript := t0, aa_pos := 1, aa_ref := ['K'], aa_alt := ['R'] }

/-- Witness for C7 amended at concrete insertion, deletion and
substitution effects. -/
theorem short_description_formats_witness :
    e7ins.short_description =
      "p." ++ toString e7ins.aa_pos ++ "ins" ++ String.mk e7ins.aa_alt ∧
    e7del.short_description =
      "p." ++ String.mk e7del.aa_ref ++ toString e7del.aa_pos ++ "del" ∧
    e7sub.short_description =
      "p." ++ String.mk e7sub.aa_ref ++ toString (e7sub.aa_pos + 1) ++
        String.mk e7sub.aa_alt :=
  ⟨short_description_formats.1 e7ins rfl,
   short_description_formats.2.1 e7del (by decide) rfl,
   short_description_formats.2.2.1 e7sub (by decide) (by decide)⟩

/-- Sample MAF record on build 37 for the C9 theorem. -/
def m1 : MafRecord :=
  { NCBI_Build := "37", Chromosome := "1", Start_Position := 10, End_Position := 10,
    Reference_Allele := ['A'], Tumor_Seq_Allele1 := ['C'], Tumor_Seq_Allele2 := ['A'] }

/-- Sample MAF record on build 38 for the C9 theorem. -/
def m2 : MafRecord :=
  { NCBI_Build := "38", Chromosome := "2", Start_Position := 20, End_Position := 20,
    Reference_Allele := ['G'], Tumor_Seq_Allele1 := ['T'], Tumor_Seq_Allele2 := ['G'] }

/-- C9: the claim says MAF loading fails with a data-validation
`ValueError` on empty input or on multiple distinct NCBI builds — which
the code does, those checks running before the per-record loop — and that
when loading succeeds, `raw_reference_name` is the single build shared by
all records.  But loading can never succeed: the loop evaluates the
unbound name `normalize_nucleotide_string` (line 72) and raises
`NameError` on the first record of every nonempty MAF, here on the valid
single-build input `[m1]`, so the claim's success clause describes
behavior the code cannot exhibit. -/
theorem init_from_maf_never_succeeds :
    init_from_maf [] = .error .valueError ∧
    init_from_maf [m1, m2] = .error .valueError ∧
    init_from_maf [m1] = .error .nameError :=
  ⟨rfl, rfl, rfl⟩

end Varcode
